import Mathlib

/-!
Verification of the UDS deduplication-index core (vdo repository).

The definitions below are a shallow embedding of the indexing engine:
the zone / open-chapter / volume-index request pipeline from
`indexZone.c` and `index.c`, the triage stage and barrier protocol from
`index.c` / `indexRouter.c`, the rebuild window computation from
`index.c`, and the replay / suspend machinery from `index.c`.
Subsystems of the repository whose sources are not part of this tree
(the geometry helpers, the open-chapter hash table, the delta-based
volume index, the chapter writer, the page and sparse caches) are
modelled from the specification, as marked in their doc comments.
-/

namespace Uds

/-! ## Status codes (errors.c)

`UDS_SUCCESS` is 0.  The public error block (`error_list`) is based at
1024 and the internal block (`internal_error_list`) at 66560; the
offsets below follow the order of the two tables in `errors.c`.
`-EBUSY` is the Linux busy errno, negated as the kernel convention used
by `replay_volume`. -/

def UDS_SUCCESS : Int := 0

def UDS_CORRUPT_COMPONENT : Int := 1024 + 6

def UDS_CORRUPT_DATA : Int := 1024 + 12

def UDS_OVERFLOW : Int := 66560 + 1

def UDS_INVALID_ARGUMENT : Int := 66560 + 3

def UDS_DUPLICATE_NAME : Int := 66560 + 5

def UDS_ASSERTION_FAILED : Int := 66560 + 8

def UDS_QUEUED : Int := 66560 + 10

def EBUSY_ERROR : Int := -16

/-! ## Geometry -/

/-- The index geometry (config.h / geometry.h): the immutable per-instance
parameters of the chapter/volume layout. -/
structure Geometry where
  records_per_page : Nat
  record_pages_per_chapter : Nat
  index_pages_per_chapter : Nat
  chapters_per_volume : Nat
  sparse_chapters_per_volume : Nat
  sparse_sample_rate : Nat
deriving DecidableEq

/-- Modelled from the spec: `is_sparse` (geometry.h, not under src/): an
index is sparse iff its geometry reserves a nonzero number of sparse
chapters (§3, §4.5). -/
def is_sparse (g : Geometry) : Bool :=
  g.sparse_chapters_per_volume > 0

/-- Modelled from the spec: `is_chapter_sparse` (geometry.h, not under
src/): §3 "A chapter is sparse iff its position in the window falls
within the last `sparse_chapters_per_volume` slots", i.e. the chapter is
at least `chapters_per_volume - sparse_chapters_per_volume` (the dense
chapter count) older than the newest chapter. -/
def is_chapter_sparse (g : Geometry) (_oldest newest virtual_chapter : Nat) : Bool :=
  is_sparse g &&
    virtual_chapter + (g.chapters_per_volume - g.sparse_chapters_per_volume) ≤ newest

/-- Modelled from the spec: `chapters_to_expire` (geometry.c, not under
src/): §4.4 step 9 together with the window invariant of §3.  With the
default chapter remap (spec §9 note (c)) nothing expires until the
volume is full, after which exactly one chapter expires per close. -/
def chapters_to_expire (g : Geometry) (newest_chapter : Nat) : Nat :=
  if newest_chapter < g.chapters_per_volume then 0 else 1

/-! ## Rebuild window computation (rebuild_index, index.c)

`find_volume_chapter_boundaries` is part of volume.c (not under src/);
its outputs `lowest_vcn`, `highest_vcn` and `is_empty` are taken as
inputs here.  The function below is the window arithmetic of
`rebuild_index`, returning the status and the `newest`/`oldest` pair
the code stores into the index (`w0` is the pre-existing pair, which
the code leaves untouched when it fails before assigning). -/

/-- An active-window pair: `newest_virtual_chapter` and
`oldest_virtual_chapter` of an index or zone. -/
structure Window where
  newest : Nat
  oldest : Nat
deriving DecidableEq

/-- Result of the rebuild window computation: a status code and the
window pair left in the index. -/
structure RebuildWindowResult where
  status : Int
  window : Window
deriving DecidableEq

/-- The window arithmetic of `rebuild_index` (index.c): reject an
inverted scan range, map an empty volume to `(0, 0)`, otherwise set
`newest = highest + 1` and `oldest = lowest`, skipping the chapter
shadowed by the open chapter when the window is exactly full, and
finally reject a window larger than the volume. -/
def rebuild_index_window (cpv : Nat) (w0 : Window) (lowest highest : Nat)
    (is_empty : Bool) : RebuildWindowResult :=
  if lowest > highest then ⟨UDS_CORRUPT_COMPONENT, w0⟩
  else
    let w : Window :=
      if is_empty then ⟨0, 0⟩
      else
        let newest := highest + 1
        let oldest := lowest
        if newest = oldest + cpv then ⟨newest, oldest + 1⟩ else ⟨newest, oldest⟩
    if w.newest - w.oldest > cpv then ⟨UDS_CORRUPT_COMPONENT, w⟩
    else ⟨UDS_SUCCESS, w⟩

/-- C2: rebuild computes the active window from the scanned chapter
boundaries: an empty volume yields `newest = oldest = 0`; a non-empty
volume yields `newest = highest + 1` and `oldest = lowest`, incremented
by one exactly when the resulting window equals `chapters_per_volume`. -/
theorem rebuild_window_from_boundaries (cpv : Nat) (w0 : Window)
    (lowest highest : Nat) (is_empty : Bool) (h : lowest ≤ highest) :
    (is_empty = true →
      (rebuild_index_window cpv w0 lowest highest is_empty).window = ⟨0, 0⟩) ∧
    (is_empty = false →
      (rebuild_index_window cpv w0 lowest highest is_empty).window.newest
          = highest + 1 ∧
        (rebuild_index_window cpv w0 lowest highest is_empty).window.oldest
          = if highest + 1 - lowest = cpv then lowest + 1 else lowest) := by
  have hng : ¬ lowest > highest := not_lt.mpr h
  constructor
  · intro he
    simp only [rebuild_index_window, he, hng, if_false, if_true]
    split <;> rfl
  · intro he
    subst he
    simp only [rebuild_index_window, hng, if_false, Bool.false_eq_true]
    have hiff : (highest + 1 = lowest + cpv) ↔ (highest + 1 - lowest = cpv) := by
      omega
    by_cases hc : highest + 1 = lowest + cpv
    · simp [hc, hiff.mp hc]
      split <;> simp
    · have hc' : ¬ (highest + 1 - lowest = cpv) := fun hx => hc (by omega)
      simp [hc, hc']
      split <;> simp

/-- Witness for C2 at a concrete boundary scan. -/
theorem rebuild_window_from_boundaries_witness :
    (rebuild_index_window 8 ⟨0, 0⟩ 2 5 false).window.newest = 6 ∧
      (rebuild_index_window 8 ⟨0, 0⟩ 2 5 false).window.oldest = 2 := by
  have h := rebuild_window_from_boundaries 8 ⟨0, 0⟩ 2 5 false (by decide)
  have h2 := h.2 rfl
  refine ⟨h2.1, ?_⟩
  have := h2.2
  simpa using this

/-! ## Open chapter (openChapterZone.c, not under src/) -/

/-- Modelled from the spec: the open chapter of a zone (openChapterZone.c,
not under src/): §3/§4.2, an in-memory table of `{name, metadata}` with
insertion order preserved and a fixed capacity.  Names and metadata are
abstracted as naturals. -/
structure OpenChapterZone where
  capacity : Nat
  records : List (Nat × Nat)
deriving DecidableEq

/-- Modelled from the spec: `put_open_chapter` (§4.2): on find, overwrite
the metadata; on miss, insert at the next free slot; return the updated
chapter together with the number of remaining slots. -/
def put_open_chapter (oc : OpenChapterZone) (name metadata : Nat) :
    OpenChapterZone × Nat :=
  let recs :=
    if oc.records.any (fun r => r.1 == name) then
      oc.records.map (fun r => if r.1 == name then (name, metadata) else r)
    else
      oc.records ++ [(name, metadata)]
  (⟨oc.capacity, recs⟩, oc.capacity - recs.length)

/-- Modelled from the spec: `search_open_chapter` (§4.2): look a name up
in the open chapter, returning its metadata when present. -/
def search_open_chapter (oc : OpenChapterZone) (name : Nat) : Option Nat :=
  (oc.records.find? (fun r => r.1 == name)).map Prod.snd

/-- Modelled from the spec: `remove_from_open_chapter` (§4.2): delete a
name, reporting whether it was present. -/
def remove_from_open_chapter (oc : OpenChapterZone) (name : Nat) :
    OpenChapterZone × Bool :=
  (⟨oc.capacity, oc.records.filter (fun r => !(r.1 == name))⟩,
    oc.records.any (fun r => r.1 == name))

/-- Modelled from the spec: `reset_open_chapter` (§4.2, §4.4 step 5):
empty the (newly swapped-in) open chapter. -/
def reset_open_chapter (oc : OpenChapterZone) : OpenChapterZone :=
  ⟨oc.capacity, []⟩

/-! ## Volume index (volumeIndex / deltaIndex, not under src/) -/

/-- A volume index entry: the virtual chapter hint and the collision
flag (§3). -/
structure VolumeIndexEntry where
  virtual_chapter : Nat
  is_collision : Bool
deriving DecidableEq

/-- Modelled from the spec: the volume index (volumeIndex005.c /
deltaIndex.c, not under src/): §4.1, a per-name association of
`{vcn, is_collision}` entries supporting get / put / set_chapter /
remove / set_open_chapter.  The packed delta-list representation is
abstracted away; its fallible write outcomes are injected through the
oracle (see `ZoneOracle`). -/
structure VolumeIndexModel where
  entries : List (Nat × VolumeIndexEntry)
deriving DecidableEq

/-- The record handed back by `get_volume_index_record` (§4.1):
`{found, is_collision, vcn}`. -/
structure VolumeIndexRecord where
  is_found : Bool
  is_collision : Bool
  virtual_chapter : Nat
deriving DecidableEq

/-- Modelled from the spec: `get_volume_index_record` (§4.1): resolve a
name to its entry, if any. -/
def get_volume_index_record (vi : VolumeIndexModel) (name : Nat) :
    VolumeIndexRecord :=
  match vi.entries.find? (fun e => e.1 == name) with
  | some e => ⟨true, e.2.is_collision, e.2.virtual_chapter⟩
  | none => ⟨false, false, 0⟩

/-- Modelled from the spec: `put_volume_index_record` (§4.1): insert a
non-collision hint pointing at the chapter.  `outcome` is the status of
the underlying delta-index write (UDS_SUCCESS, or UDS_OVERFLOW /
UDS_DUPLICATE_NAME when the delta list overflows or the name is already
present); on a non-success outcome the index is unchanged. -/
def put_volume_index_record (vi : VolumeIndexModel) (name chapter : Nat)
    (outcome : Int) : Int × VolumeIndexModel :=
  if outcome = UDS_SUCCESS then
    (UDS_SUCCESS, ⟨(name, ⟨chapter, false⟩) :: vi.entries⟩)
  else (outcome, vi)

/-- Modelled from the spec: `set_volume_index_record_chapter` (§4.1):
update the existing hint to point at the chapter.  `outcome` as in
`put_volume_index_record`. -/
def set_volume_index_record_chapter (vi : VolumeIndexModel) (name chapter : Nat)
    (outcome : Int) : Int × VolumeIndexModel :=
  if outcome = UDS_SUCCESS then
    (UDS_SUCCESS,
      ⟨vi.entries.map
        (fun e => if e.1 == name then (e.1, ⟨chapter, e.2.is_collision⟩) else e)⟩)
  else (outcome, vi)

/-- Modelled from the spec: `remove_volume_index_record` (§4.1): delete
the entry for the name. -/
def remove_volume_index_record (vi : VolumeIndexModel) (name : Nat) :
    VolumeIndexModel :=
  ⟨vi.entries.filter (fun e => !(e.1 == name))⟩

/-- Modelled from the spec: `set_volume_index_zone_open_chapter` (§4.1):
advance the rolling window to `vcn`, purging entries pointing to the
physical chapter being reused, i.e. entries that have fallen out of the
window of `chapters_per_volume` chapters ending at `vcn`. -/
def set_volume_index_zone_open_chapter (g : Geometry) (vi : VolumeIndexModel)
    (vcn : Nat) : VolumeIndexModel :=
  ⟨vi.entries.filter (fun e => vcn < e.2.virtual_chapter + g.chapters_per_volume)⟩

/-! ## Index zones (indexZone.c) -/

/-- The per-zone state (indexZone.h): the open and writing chapters and
the per-zone copy of the newest/oldest virtual chapter pair. -/
structure IndexZone where
  newest_virtual_chapter : Nat
  oldest_virtual_chapter : Nat
  open_chapter : OpenChapterZone
  writing_chapter : OpenChapterZone
deriving DecidableEq

/-- `is_zone_chapter_sparse` (indexZone.c): delegate to the geometry
predicate using the window of this zone. -/
def is_zone_chapter_sparse (g : Geometry) (zone : IndexZone)
    (virtual_chapter : Nat) : Bool :=
  is_chapter_sparse g zone.oldest_virtual_chapter zone.newest_virtual_chapter
    virtual_chapter

/-- The outcome of `open_next_chapter` (indexZone.c): the status, the
new zone state, the volume index slice, and the
`ANNOUNCE_CHAPTER_CLOSED` messages launched to peer zones, as
`(destination zone id, closed virtual chapter)` pairs. -/
structure OpenNextChapterResult where
  status : Int
  zone : IndexZone
  vi : VolumeIndexModel
  messages : List (Nat × Nat)
deriving DecidableEq

/-- `open_next_chapter` (indexZone.c): swap the open and writing
chapters, advance `newest_virtual_chapter`, reap the oldest chapter
(asserting the window bound, then purging the volume index), reset the
open chapter, submit the writing chapter to the chapter writer, and, if
this was the first of several zones to close the chapter, announce the
closure to the other zones; finally advance `oldest_virtual_chapter` by
`chapters_to_expire`.

The chapter writer (chapterWriter.c, not under src/) is modelled from
the spec: `finish_previous_chapter` blocks without failing, and
`start_closing_chapter` reports `finished_zones`, the number of zones
that have submitted this chapter so far, which is taken as an input.
`process_checkpointing` and the `forget_chapter` cache invalidation do
not touch the state modelled here. -/
def open_next_chapter (g : Geometry) (zone_count zone_id finished_zones : Nat)
    (zone : IndexZone) (vi : VolumeIndexModel) : OpenNextChapterResult :=
  let zone1 : IndexZone :=
    { zone with
        open_chapter := zone.writing_chapter
        writing_chapter := zone.open_chapter }
  let closed_chapter := zone1.newest_virtual_chapter
  let zone2 := { zone1 with newest_virtual_chapter := closed_chapter + 1 }
  if g.chapters_per_volume <
      zone2.newest_virtual_chapter - zone2.oldest_virtual_chapter then
    ⟨UDS_ASSERTION_FAILED, zone2, vi, []⟩
  else
    let vi2 := set_volume_index_zone_open_chapter g vi zone2.newest_virtual_chapter
    let zone3 := { zone2 with open_chapter := reset_open_chapter zone2.open_chapter }
    let messages :=
      if finished_zones = 1 ∧ 1 < zone_count then
        ((List.range zone_count).filter (fun i => i ≠ zone_id)).map
          (fun i => (i, closed_chapter))
      else []
    let expired := chapters_to_expire g zone3.newest_virtual_chapter
    let zone4 :=
      { zone3 with
          oldest_virtual_chapter := zone3.oldest_virtual_chapter + expired }
    ⟨UDS_SUCCESS, zone4, vi2, messages⟩

/-- `handle_chapter_closed` (indexZone.c): on receiving an
`ANNOUNCE_CHAPTER_CLOSED` message, close the open chapter of this zone iff it
is still the announced chapter. -/
def handle_chapter_closed (g : Geometry) (zone_count zone_id finished_zones : Nat)
    (zone : IndexZone) (vi : VolumeIndexModel) (virtual_chapter : Nat) :
    OpenNextChapterResult :=
  if zone.newest_virtual_chapter = virtual_chapter then
    open_next_chapter g zone_count zone_id finished_zones zone vi
  else
    ⟨UDS_SUCCESS, zone, vi, []⟩

/-- `put_record_in_zone` (indexZone.c): put the record into the open
chapter; if that fills the chapter exactly, open the next chapter. -/
def put_record_in_zone (g : Geometry) (zone_count zone_id finished_zones : Nat)
    (zone : IndexZone) (vi : VolumeIndexModel) (name metadata : Nat) :
    OpenNextChapterResult :=
  let pr := put_open_chapter zone.open_chapter name metadata
  let zone1 := { zone with open_chapter := pr.1 }
  if pr.2 = 0 then
    open_next_chapter g zone_count zone_id finished_zones zone1 vi
  else
    ⟨UDS_SUCCESS, zone1, vi, []⟩

/-- C1: a put into the open chapter that leaves exactly zero remaining
slots closes the chapter — `open_next_chapter` runs, the open chapter is
freshly reset and `newest_virtual_chapter` advances by exactly one —
while a put that leaves one or more remaining slots leaves
`newest_virtual_chapter` unchanged. -/
theorem put_record_advances_newest_on_fill (g : Geometry)
    (zone_count zone_id finished_zones : Nat) (zone : IndexZone)
    (vi : VolumeIndexModel) (name metadata : Nat)
    (hwin : zone.newest_virtual_chapter + 1 - zone.oldest_virtual_chapter ≤
      g.chapters_per_volume) :
    ((put_open_chapter zone.open_chapter name metadata).2 = 0 →
      (put_record_in_zone g zone_count zone_id finished_zones zone vi
            name metadata).zone.newest_virtual_chapter
          = zone.newest_virtual_chapter + 1 ∧
        (put_record_in_zone g zone_count zone_id finished_zones zone vi
            name metadata).zone.open_chapter.records = []) ∧
    ((put_open_chapter zone.open_chapter name metadata).2 ≠ 0 →
      (put_record_in_zone g zone_count zone_id finished_zones zone vi
          name metadata).zone.newest_virtual_chapter
        = zone.newest_virtual_chapter) := by
  have hno : ¬ g.chapters_per_volume <
      zone.newest_virtual_chapter + 1 - zone.oldest_virtual_chapter :=
    not_lt.mpr hwin
  constructor
  · intro hfull
    simp [put_record_in_zone, open_next_chapter, hfull, hno, reset_open_chapter]
  · intro hrem
    simp [put_record_in_zone, hrem]

/-- Witness for C1 at a concrete zone: a chapter of capacity 2 holding
one record is filled exactly by the put, and the zone advances from
chapter 0 to chapter 1 with a reset open chapter. -/
theorem put_record_advances_newest_on_fill_witness :
    (put_record_in_zone ⟨16, 4, 2, 8, 0, 4⟩ 1 0 1
          ⟨0, 0, ⟨2, [(5, 9)]⟩, ⟨2, []⟩⟩ ⟨[]⟩ 3 7).zone.newest_virtual_chapter = 1 ∧
      (put_record_in_zone ⟨16, 4, 2, 8, 0, 4⟩ 1 0 1
          ⟨0, 0, ⟨2, [(5, 9)]⟩, ⟨2, []⟩⟩ ⟨[]⟩ 3 7).zone.open_chapter.records = [] :=
  (put_record_advances_newest_on_fill ⟨16, 4, 2, 8, 0, 4⟩ 1 0 1
      ⟨0, 0, ⟨2, [(5, 9)]⟩, ⟨2, []⟩⟩ ⟨[]⟩ 3 7 (by decide)).1 (by decide)

/-- C6: when a zone closes a chapter, is the first zone to submit it
(`finished_zones = 1`) and the index has more than one zone, an
`ANNOUNCE_CHAPTER_CLOSED` message carrying the closed chapter is
launched to every zone except the closing one; and a zone receiving the
message runs `open_next_chapter` iff its own
`newest_virtual_chapter` equals the announced chapter, leaving its
state unchanged otherwise. -/
theorem first_zone_close_announces (g : Geometry)
    (zone_count zone_id : Nat) (zone : IndexZone) (vi : VolumeIndexModel)
    (hwin : zone.newest_virtual_chapter + 1 - zone.oldest_virtual_chapter ≤
      g.chapters_per_volume)
    (hzc : 1 < zone_count) :
    (open_next_chapter g zone_count zone_id 1 zone vi).messages
        = ((List.range zone_count).filter (fun i => i ≠ zone_id)).map
            (fun i => (i, zone.newest_virtual_chapter)) ∧
    (∀ (finished_zones : Nat) (zone' : IndexZone) (vi' : VolumeIndexModel)
        (v : Nat),
      (zone'.newest_virtual_chapter = v →
        handle_chapter_closed g zone_count zone_id finished_zones zone' vi' v
          = open_next_chapter g zone_count zone_id finished_zones zone' vi') ∧
      (zone'.newest_virtual_chapter ≠ v →
        handle_chapter_closed g zone_count zone_id finished_zones zone' vi' v
          = ⟨UDS_SUCCESS, zone', vi', []⟩)) := by
  have hno : ¬ g.chapters_per_volume <
      zone.newest_virtual_chapter + 1 - zone.oldest_virtual_chapter :=
    not_lt.mpr hwin
  refine ⟨?_, ?_⟩
  · simp [open_next_chapter, hno, hzc]
  · intro finished_zones zone' vi' v
    constructor
    · intro he
      simp [handle_chapter_closed, he]
    · intro hne
      simp [handle_chapter_closed, hne]

/-- Witness for C6 at a two-zone index: zone 0 closes chapter 5 first
and a message `(1, 5)` is launched to zone 1; a peer zone at chapter 5
reacts by opening its next chapter, a peer at chapter 6 is untouched. -/
theorem first_zone_close_announces_witness :
    (open_next_chapter ⟨16, 4, 2, 8, 0, 4⟩ 2 0 1
          ⟨5, 0, ⟨2, []⟩, ⟨2, []⟩⟩ ⟨[]⟩).messages = [(1, 5)] ∧
      handle_chapter_closed ⟨16, 4, 2, 8, 0, 4⟩ 2 1 1 ⟨6, 0, ⟨2, []⟩, ⟨2, []⟩⟩ ⟨[]⟩ 5
        = ⟨UDS_SUCCESS, ⟨6, 0, ⟨2, []⟩, ⟨2, []⟩⟩, ⟨[]⟩, []⟩ := by
  have h := first_zone_close_announces ⟨16, 4, 2, 8, 0, 4⟩ 2 0
    ⟨5, 0, ⟨2, []⟩, ⟨2, []⟩⟩ ⟨[]⟩ (by decide) (by decide)
  refine ⟨?_, (h.2 1 ⟨6, 0, ⟨2, []⟩, ⟨2, []⟩⟩ ⟨[]⟩ 5).2 (by decide)⟩
  rw [h.1]
  decide

/-! ## The active window invariant (C3) -/

/-- `advance_active_chapters` (index.c): advance the newest chapter and
expire the oldest accordingly. -/
def advance_active_chapters (g : Geometry) (w : Window) : Window :=
  ⟨w.newest + 1, w.oldest + chapters_to_expire g (w.newest + 1)⟩

/-- The reachable newest/oldest window pairs of an index: a freshly
created index starts at `(0, 0)`; a successful rebuild installs the pair
computed from the chapter boundaries; loading restores a pair previously
saved from a reachable state; and each chapter closure — in the index
(`advance_active_chapters`) or in a zone (`open_next_chapter`, see
`open_next_chapter_is_advance`) — advances the pair. -/
inductive ReachableWindow (g : Geometry) : Window → Prop where
  | create : ReachableWindow g ⟨0, 0⟩
  | rebuild (w0 : Window) (lowest highest : Nat) (is_empty : Bool)
      (h : (rebuild_index_window g.chapters_per_volume w0 lowest highest
              is_empty).status = UDS_SUCCESS) :
      ReachableWindow g
        (rebuild_index_window g.chapters_per_volume w0 lowest highest
          is_empty).window
  | load (w : Window) (h : ReachableWindow g w) : ReachableWindow g w
  | advance (w : Window) (h : ReachableWindow g w) :
      ReachableWindow g (advance_active_chapters g w)

/-- A successful `open_next_chapter` moves the window pair of the zone exactly
as `advance_active_chapters` moves the index pair. -/
theorem open_next_chapter_is_advance (g : Geometry)
    (zone_count zone_id finished_zones : Nat) (zone : IndexZone)
    (vi : VolumeIndexModel)
    (h : (open_next_chapter g zone_count zone_id finished_zones zone vi).status
      = UDS_SUCCESS) :
    (⟨(open_next_chapter g zone_count zone_id finished_zones zone
          vi).zone.newest_virtual_chapter,
      (open_next_chapter g zone_count zone_id finished_zones zone
          vi).zone.oldest_virtual_chapter⟩ : Window)
      = advance_active_chapters g
          ⟨zone.newest_virtual_chapter, zone.oldest_virtual_chapter⟩ := by
  by_cases hc : g.chapters_per_volume <
      zone.newest_virtual_chapter + 1 - zone.oldest_virtual_chapter
  · exfalso
    rw [open_next_chapter] at h
    simp only [hc, if_true] at h
    exact absurd h (by decide)
  · simp [open_next_chapter, hc, advance_active_chapters]

/-- Witness for `open_next_chapter_is_advance` at a concrete zone. -/
theorem open_next_chapter_is_advance_witness :
    (⟨(open_next_chapter ⟨16, 4, 2, 8, 0, 4⟩ 1 0 1 ⟨3, 0, ⟨2, []⟩, ⟨2, []⟩⟩
          ⟨[]⟩).zone.newest_virtual_chapter,
      (open_next_chapter ⟨16, 4, 2, 8, 0, 4⟩ 1 0 1 ⟨3, 0, ⟨2, []⟩, ⟨2, []⟩⟩
          ⟨[]⟩).zone.oldest_virtual_chapter⟩ : Window)
      = advance_active_chapters ⟨16, 4, 2, 8, 0, 4⟩ ⟨3, 0⟩ :=
  open_next_chapter_is_advance ⟨16, 4, 2, 8, 0, 4⟩ 1 0 1
    ⟨3, 0, ⟨2, []⟩, ⟨2, []⟩⟩ ⟨[]⟩ (by decide)

/-- C3: in every reachable state of an index with at least one chapter
per volume, the active window satisfies
`0 ≤ newest - oldest ≤ chapters_per_volume` — stated over naturals as
`oldest ≤ newest` and `newest - oldest ≤ chapters_per_volume`.  Zone
copies of the pair are covered because `set_active_chapters` copies the
index pair verbatim and a zone-level `open_next_chapter` performs the same
`advance_active_chapters` step (`open_next_chapter_is_advance`). -/
theorem reachable_window_invariant (g : Geometry)
    (hg : 0 < g.chapters_per_volume) (w : Window)
    (h : ReachableWindow g w) :
    w.oldest ≤ w.newest ∧ w.newest - w.oldest ≤ g.chapters_per_volume := by
  induction h with
  | create => exact ⟨le_refl 0, by simp⟩
  | rebuild w0 lowest highest is_empty h =>
    rw [rebuild_index_window] at h ⊢
    by_cases hlh : lowest > highest
    · simp only [hlh, if_true] at h
      exact absurd h (by decide)
    · simp only [hlh, if_false] at h ⊢
      rcases is_empty with _ | _
      · simp only [Bool.false_eq_true, if_false] at h ⊢
        by_cases hfull : highest + 1 = lowest + g.chapters_per_volume
        · simp only [hfull, if_true] at h ⊢
          have hcond : ¬ (lowest + g.chapters_per_volume - (lowest + 1) >
              g.chapters_per_volume) := by omega
          simp only [hcond, if_false]
          refine ⟨by omega, by omega⟩
        · simp only [hfull, if_false] at h ⊢
          by_cases hb : highest + 1 - lowest > g.chapters_per_volume
          · simp only [hb, if_true] at h
            exact absurd h (by decide)
          · simp only [hb, if_false]
            refine ⟨by omega, by omega⟩
      · simp only [if_true] at h ⊢
        have hcond : ¬ ((0 : Nat) - 0 > g.chapters_per_volume) := by omega
        simp only [hcond, if_false]
        exact ⟨le_refl 0, by simp⟩
  | load w h ih => exact ih
  | advance w h ih =>
    rcases ih with ⟨h1, h2⟩
    rw [advance_active_chapters, chapters_to_expire]
    by_cases hlt : w.newest + 1 < g.chapters_per_volume
    · simp only [hlt, if_true]
      constructor
      · omega
      · omega
    · simp only [hlt, if_false]
      constructor
      · omega
      · omega

/-- Witness for C3: the invariant at the freshly created index. -/
theorem reachable_window_invariant_witness :
    (0 : Nat) ≤ 0 ∧ (0 : Nat) - 0 ≤ 8 :=
  reachable_window_invariant ⟨16, 4, 2, 8, 0, 4⟩ (by decide) ⟨0, 0⟩
    ReachableWindow.create

/-! ## Triage stage and sparse-cache barriers (index.c)

The zone queues (requestQueue.c, not under src/) are modelled from the
spec as FIFO lists (§5: within a zone, operations execute in enqueue
order); `lookup_volume_index_name` (volumeIndex, not under src/) is
modelled from the spec by taking its triage output — the
`in_sampled_chapter` flag and the candidate virtual chapter — as
inputs (§4.1). -/

/-- An item on a zone queue: a `SPARSE_CACHE_BARRIER` control message
carrying a virtual chapter, or an index request identified by its chunk
name. -/
inductive QueueItem where
  | barrier (virtual_chapter : Nat)
  | request (name : Nat)
deriving DecidableEq

/-- Append an item to the queue of the given zone (the FIFO enqueue of
`launch_zone_message` / `enqueue_request`). -/
def enqueueAt : List (List QueueItem) → Nat → QueueItem → List (List QueueItem)
  | [], _, _ => []
  | q :: qs, 0, item => (q ++ [item]) :: qs
  | q :: qs, n + 1, item => q :: enqueueAt qs n item

/-- `triage_index_request` (index.c): resolve the name in the volume
index; if it is a hook (`in_sampled_chapter`) whose candidate chapter is
currently in the sparse region of the window of this zone, return that
chapter (the `UINT64_MAX` sentinel of the code becomes `none`). -/
def triage_index_request (g : Geometry) (zone_oldest zone_newest : Nat)
    (in_sampled_chapter : Bool) (virtual_chapter : Nat) : Option Nat :=
  if !in_sampled_chapter then none
  else if !(is_chapter_sparse g zone_oldest zone_newest virtual_chapter) then none
  else some virtual_chapter

/-- `enqueue_barrier_messages` (index.c): place a
`SPARSE_CACHE_BARRIER` message carrying the chapter on every zone
queue. -/
def enqueue_barrier_messages (queues : List (List QueueItem))
    (virtual_chapter : Nat) : List (List QueueItem) :=
  queues.map (fun q => q ++ [QueueItem.barrier virtual_chapter])

/-- `triage_request` (index.c): the triage-queue worker: if the request
needs a barrier, enqueue barrier messages on every zone queue, then
enqueue the request on its owning zone queue. -/
def triage_request (g : Geometry) (zone_oldest zone_newest : Nat)
    (in_sampled_chapter : Bool) (virtual_chapter : Nat)
    (zone_number name : Nat) (queues : List (List QueueItem)) :
    List (List QueueItem) :=
  let queues1 :=
    match triage_index_request g zone_oldest zone_newest in_sampled_chapter
        virtual_chapter with
    | some v => enqueue_barrier_messages queues v
    | none => queues
  enqueueAt queues1 zone_number (QueueItem.request name)

theorem enqueueAt_get_ne (qs : List (List QueueItem)) (n : Nat)
    (item : QueueItem) (i : Nat) (hne : i ≠ n) :
    (enqueueAt qs n item).get? i = qs.get? i := by
  induction qs generalizing n i with
  | nil => simp [enqueueAt]
  | cons q qs ih =>
    cases n with
    | zero =>
      cases i with
      | zero => exact absurd rfl hne
      | succ j => simp [enqueueAt]
    | succ m =>
      cases i with
      | zero => simp [enqueueAt]
      | succ j =>
        simp only [enqueueAt, List.get?]
        exact ih m j (fun hx => hne (by omega))

theorem enqueueAt_get_eq (qs : List (List QueueItem)) (n : Nat)
    (item : QueueItem) :
    (enqueueAt qs n item).get? n = (qs.get? n).map (fun q => q ++ [item]) := by
  induction qs generalizing n with
  | nil => simp [enqueueAt]
  | cons q qs ih =>
    cases n with
    | zero => simp [enqueueAt]
    | succ m =>
      simp only [enqueueAt, List.get?]
      exact ih m

/-- C5: when the chunk name is a volume-index sample resolving to a
chapter in the sparse region, the triage stage appends a
`SPARSE_CACHE_BARRIER` message for that chapter to every zone queue and
appends the request after the barrier on its owning zone queue; for any
other request no barrier message is enqueued anywhere and only the
owning zone queue receives the request. -/
theorem triage_barrier_before_request (g : Geometry)
    (zone_oldest zone_newest : Nat) (in_sampled_chapter : Bool)
    (virtual_chapter zone_number name : Nat)
    (queues : List (List QueueItem)) :
    ((in_sampled_chapter = true ∧
        is_chapter_sparse g zone_oldest zone_newest virtual_chapter = true) →
      (∀ i, i < queues.length → i ≠ zone_number →
        (triage_request g zone_oldest zone_newest in_sampled_chapter
            virtual_chapter zone_number name queues).get? i
          = (queues.get? i).map
              (fun q => q ++ [QueueItem.barrier virtual_chapter])) ∧
      (triage_request g zone_oldest zone_newest in_sampled_chapter
          virtual_chapter zone_number name queues).get? zone_number
        = (queues.get? zone_number).map
            (fun q => q ++ [QueueItem.barrier virtual_chapter,
                            QueueItem.request name])) ∧
    (¬ (in_sampled_chapter = true ∧
        is_chapter_sparse g zone_oldest zone_newest virtual_chapter = true) →
      (∀ i, i < queues.length → i ≠ zone_number →
        (triage_request g zone_oldest zone_newest in_sampled_chapter
            virtual_chapter zone_number name queues).get? i
          = queues.get? i) ∧
      (triage_request g zone_oldest zone_newest in_sampled_chapter
          virtual_chapter zone_number name queues).get? zone_number
        = (queues.get? zone_number).map
            (fun q => q ++ [QueueItem.request name])) := by
  constructor
  · rintro ⟨hs, hsp⟩
    have htri : triage_index_request g zone_oldest zone_newest
        in_sampled_chapter virtual_chapter = some virtual_chapter := by
      simp [triage_index_request, hs, hsp]
    constructor
    · intro i hi hne
      rw [triage_request, htri]
      simp only
      rw [enqueueAt_get_ne _ _ _ _ hne, enqueue_barrier_messages,
        List.get?_map]
    · rw [triage_request, htri]
      simp only
      rw [enqueueAt_get_eq, enqueue_barrier_messages, List.get?_map]
      cases queues.get? zone_number with
      | none => rfl
      | some q => simp
  · intro hnot
    have htri : triage_index_request g zone_oldest zone_newest
        in_sampled_chapter virtual_chapter = none := by
      rcases hs : in_sampled_chapter with _ | _
      · simp [triage_index_request]
      · rcases hsp : is_chapter_sparse g zone_oldest zone_newest
            virtual_chapter with _ | _
        · simp [triage_index_request, hsp]
        · exact absurd ⟨rfl, hsp⟩ (hs ▸ hnot)
    constructor
    · intro i hi hne
      rw [triage_request, htri]
      simp only
      exact enqueueAt_get_ne _ _ _ _ hne
    · rw [triage_request, htri]
      simp only
      exact enqueueAt_get_eq _ _ _

/-- Witness for C5: two zones, a hook resolving to sparse chapter 2;
zone 1 owns the request.  Zone 0 receives only the barrier, zone 1 the
barrier followed by the request. -/
theorem triage_barrier_before_request_witness :
    triage_request ⟨16, 4, 2, 8, 2, 4⟩ 2 10 true 2 1 77 [[], []]
      = [[QueueItem.barrier 2], [QueueItem.barrier 2, QueueItem.request 77]] := by
  have h := triage_barrier_before_request ⟨16, 4, 2, 8, 2, 4⟩ 2 10 true 2 1 77
    [[], []]
  have h1 := (h.1 ⟨rfl, by decide⟩).1 0 (by decide) (by decide)
  have h2 := (h.1 ⟨rfl, by decide⟩).2
  have hlen : (triage_request ⟨16, 4, 2, 8, 2, 4⟩ 2 10 true 2 1 77
      [[], []]).length = 2 := by decide
  match hq : triage_request ⟨16, 4, 2, 8, 2, 4⟩ 2 10 true 2 1 77 [[], []] with
  | [a, b] =>
    rw [hq] at h1 h2
    simp at h1 h2
    rw [h1, h2]
  | [] => rw [hq] at hlen; simp at hlen
  | [a] => rw [hq] at hlen; simp at hlen
  | a :: b :: c :: t => rw [hq] at hlen; simp at hlen

/-! ## The request pipeline (index.c, indexZone.c, indexSession.c) -/

/-- The request types of the public API (uds.h). -/
inductive RequestType where
  | post
  | update
  | query
  | deleteReq
deriving DecidableEq

/-- The index-region values reported through the callback (uds.h):
`UNKNOWN`, `IN_OPEN_CHAPTER`, `IN_DENSE`, `IN_SPARSE`, `UNAVAILABLE`. -/
inductive IndexRegion where
  | unknown
  | in_open_chapter
  | in_dense
  | in_sparse
  | unavailable
deriving DecidableEq

/-- A uds request as seen by the zone worker: the immutable inputs
(`type`, the query `update` flag, the chunk `name`, `new_metadata`), the
mutable outputs (`old_metadata`, `location`), and the `requeued` flag
set when a request re-enters the zone after a page-cache miss. -/
structure Request where
  type : RequestType
  update : Bool
  name : Nat
  new_metadata : Nat
  old_metadata : Nat
  location : IndexRegion
  requeued : Bool
deriving DecidableEq

/-- Modelled from the spec: the outcomes of the subsystems that are not
under src/ and that the zone code calls into — the delta-index write
status (`vi_write_result`, §4.1: UDS_SUCCESS, UDS_OVERFLOW on delta-list
overflow, or UDS_DUPLICATE_NAME), the volume page-cache / sparse-cache
search for a name in a closed chapter (`volume_search`, `sparse_search`,
§4.3: a status and the metadata when the record is found), the sampling
predicate (`is_sample`, §3), the chapter-writer submission count
(`finished_zones`, §4.6), the `lookup_volume_index_name` triage outcome
(`triage_lookup`, §4.1: the `in_sampled_chapter` flag and the candidate
virtual chapter), and the status of admitting a chapter into the sparse
cache (`update_sparse_cache_result`, §4.5: decoding the chapter-index
pages reads the volume and can fail). -/
structure ZoneOracle where
  vi_write_result : Int
  volume_search : Nat → Nat → Int × Option Nat
  sparse_search : Nat → Int × Option Nat
  is_sample : Nat → Bool
  finished_zones : Nat
  triage_lookup : Nat → Bool × Nat
  update_sparse_cache_result : Int

/-- `compute_index_region` (indexZone.c): the open chapter, else sparse
or dense according to the window of the zone. -/
def compute_index_region (g : Geometry) (zone : IndexZone)
    (virtual_chapter : Nat) : IndexRegion :=
  if virtual_chapter = zone.newest_virtual_chapter then
    IndexRegion.in_open_chapter
  else if is_zone_chapter_sparse g zone virtual_chapter then
    IndexRegion.in_sparse
  else IndexRegion.in_dense

/-- `get_record_from_zone` (indexZone.c): search the open chapter when
the cited chapter is the newest, the writing chapter when it is the
previous chapter and the writing chapter is non-empty, reuse a
previously determined location, and otherwise search the sparse cache or
the volume page cache (both behind the oracle).  Returns
`(status, found, old_metadata)`. -/
def get_record_from_zone (or : ZoneOracle) (zone : IndexZone)
    (req : Request) (virtual_chapter : Nat) : Int × Bool × Nat :=
  if virtual_chapter = zone.newest_virtual_chapter then
    match search_open_chapter zone.open_chapter req.name with
    | some md => (UDS_SUCCESS, true, md)
    | none => (UDS_SUCCESS, false, req.old_metadata)
  else if 0 < zone.newest_virtual_chapter ∧
      virtual_chapter = zone.newest_virtual_chapter - 1 ∧
      0 < zone.writing_chapter.records.length then
    match search_open_chapter zone.writing_chapter req.name with
    | some md => (UDS_SUCCESS, true, md)
    | none => (UDS_SUCCESS, false, req.old_metadata)
  else if req.location ≠ IndexRegion.unknown then
    (UDS_SUCCESS, req.location ≠ IndexRegion.unavailable, req.old_metadata)
  else
    match or.volume_search req.name virtual_chapter with
    | (r, some md) => (r, true, md)
    | (r, none) => (r, false, req.old_metadata)

/-- The outcome of one zone-worker step on a request: the status, the
zone and volume-index state, the request output fields, and any
control messages launched. -/
structure ZoneStepResult where
  status : Int
  zone : IndexZone
  vi : VolumeIndexModel
  location : IndexRegion
  old_metadata : Nat
  messages : List (Nat × Nat)
deriving DecidableEq

/-- The tail of `search_index_zone` (index.c): swallow a delta-list
overflow, propagate any other error, otherwise choose the metadata (the
new metadata for new records and updates, the old metadata when moving a
duplicate for LRU) and put the record into the open chapter. -/
def search_index_zone_finish (g : Geometry) (or : ZoneOracle)
    (zone_count zone_id : Nat) (zone : IndexZone) (vi : VolumeIndexModel)
    (r : Int) (loc : IndexRegion) (found : Bool) (old_md : Nat)
    (req : Request) : ZoneStepResult :=
  if r = UDS_OVERFLOW then ⟨UDS_SUCCESS, zone, vi, loc, old_md, []⟩
  else if r ≠ UDS_SUCCESS then ⟨r, zone, vi, loc, old_md, []⟩
  else
    let md := if found = false ∨ req.type = RequestType.update then
        req.new_metadata
      else old_md
    let pr := put_record_in_zone g zone_count zone_id or.finished_zones zone vi
      req.name md
    ⟨pr.status, pr.zone, pr.vi, loc, old_md, pr.messages⟩

/-- `search_index_zone` (index.c): resolve the name in the volume index;
confirm a hit in the cited chapter; handle overflow (collision) records;
for queries without update stop here; otherwise refresh or create the
volume index entry for the open chapter and put the record into the open
chapter. -/
def search_index_zone (g : Geometry) (or : ZoneOracle)
    (zone_count zone_id : Nat) (zone : IndexZone) (vi : VolumeIndexModel)
    (req : Request) : ZoneStepResult :=
  let record := get_volume_index_record vi req.name
  let probe :=
    if record.is_found then get_record_from_zone or zone req record.virtual_chapter
    else (UDS_SUCCESS, false, req.old_metadata)
  if probe.1 ≠ UDS_SUCCESS then
    ⟨probe.1, zone, vi, req.location, probe.2.2, []⟩
  else
    let found0 := probe.2.1
    let old0 := probe.2.2
    let loc1 := if found0 then compute_index_region g zone record.virtual_chapter
      else req.location
    let overflow_record := record.is_found && record.is_collision && !found0
    let chapter := zone.newest_virtual_chapter
    if found0 || overflow_record then
      if req.type = RequestType.query ∧
          (req.update = false ∨ overflow_record = true) then
        ⟨UDS_SUCCESS, zone, vi, loc1, old0, []⟩
      else if record.virtual_chapter ≠ chapter then
        let wr := set_volume_index_record_chapter vi req.name chapter
          or.vi_write_result
        search_index_zone_finish g or zone_count zone_id zone wr.2 wr.1 loc1
          found0 old0 req
      else if req.type ≠ RequestType.update then
        ⟨UDS_SUCCESS, zone, vi, loc1, old0, []⟩
      else
        search_index_zone_finish g or zone_count zone_id zone vi UDS_SUCCESS
          loc1 found0 old0 req
    else
      let spr := if !(or.is_sample req.name) && is_sparse g then
          or.sparse_search req.name
        else (UDS_SUCCESS, none)
      if spr.1 ≠ UDS_SUCCESS then ⟨spr.1, zone, vi, loc1, old0, []⟩
      else
        let found1 := spr.2.isSome
        let old1 := spr.2.getD old0
        let loc2 := if found1 then IndexRegion.in_sparse else loc1
        if req.type = RequestType.query ∧
            (found1 = false ∨ req.update = false) then
          ⟨UDS_SUCCESS, zone, vi, loc2, old1, []⟩
        else
          let wr := put_volume_index_record vi req.name chapter
            or.vi_write_result
          search_index_zone_finish g or zone_count zone_id zone wr.2 wr.1 loc2
            found1 old1 req

/-- `remove_from_index_zone` (index.c): nothing to remove when the name
is not in the volume index; a non-collision entry is only a hint and is
confirmed in the cited chapter first; on confirmation the volume index
entry is removed and, when the record is in the open chapter, the open
chapter slot is removed as well (asserting it was present).
`remove_probe` is the hint-confirmation step: a collision entry is
authoritative, a non-collision entry is resolved through
`get_record_from_zone`. -/
def remove_probe (or : ZoneOracle) (zone : IndexZone) (req : Request)
    (record : VolumeIndexRecord) : Int × Bool × Nat :=
  if record.is_collision = false then
    get_record_from_zone or zone req record.virtual_chapter
  else (UDS_SUCCESS, true, req.old_metadata)

def remove_from_index_zone (g : Geometry) (or : ZoneOracle)
    (zone : IndexZone) (vi : VolumeIndexModel) (req : Request) :
    ZoneStepResult :=
  let record := get_volume_index_record vi req.name
  if record.is_found = false then
    ⟨UDS_SUCCESS, zone, vi, req.location, req.old_metadata, []⟩
  else
    let probe := remove_probe or zone req record
    if probe.1 ≠ UDS_SUCCESS then
      ⟨probe.1, zone, vi, req.location, probe.2.2, []⟩
    else if record.is_collision = false ∧ probe.2.1 = false then
      ⟨UDS_SUCCESS, zone, vi, req.location, probe.2.2, []⟩
    else
      let loc := compute_index_region g zone record.virtual_chapter
      let vi2 := remove_volume_index_record vi req.name
      if loc = IndexRegion.in_open_chapter then
        let rm := remove_from_open_chapter zone.open_chapter req.name
        if rm.2 = false then
          ⟨UDS_ASSERTION_FAILED, { zone with open_chapter := rm.1 }, vi2, loc,
            probe.2.2, []⟩
        else
          ⟨UDS_SUCCESS, { zone with open_chapter := rm.1 }, vi2, loc,
            probe.2.2, []⟩
      else ⟨UDS_SUCCESS, zone, vi2, loc, probe.2.2, []⟩

/-- `simulate_index_zone_barrier_message` (index.c): a multi-zone or
dense index needs no simulation; otherwise, when the request is for a
hook resolving to a sparse chapter, the barrier message the triage queue
would have generated is executed inline by calling
`update_sparse_cache`, whose status (it decodes chapter-index pages read
from the volume) comes from the oracle. -/
def simulate_index_zone_barrier_message (g : Geometry) (or : ZoneOracle)
    (zone_count : Nat) (zone : IndexZone) (name : Nat) : Int :=
  if 1 < zone_count ∨ is_sparse g = false then UDS_SUCCESS
  else
    match triage_index_request g zone.oldest_virtual_chapter
        zone.newest_virtual_chapter (or.triage_lookup name).1
        (or.triage_lookup name).2 with
    | none => UDS_SUCCESS
    | some _ => or.update_sparse_cache_result

/-- `dispatch_index_request` (index.c): for a non-requeued request first
run `simulate_index_zone_barrier_message`, returning its error — before
the location is reset or normalized — if it fails; then reset the
location of the request to `UNKNOWN`, dispatch by type, and replace a
location still `UNKNOWN` by `UNAVAILABLE`. -/
def dispatch_index_request (g : Geometry) (or : ZoneOracle)
    (zone_count zone_id : Nat) (zone : IndexZone) (vi : VolumeIndexModel)
    (req : Request) : ZoneStepResult :=
  let sim :=
    if req.requeued = false then
      simulate_index_zone_barrier_message g or zone_count zone req.name
    else UDS_SUCCESS
  if sim ≠ UDS_SUCCESS then
    ⟨sim, zone, vi, req.location, req.old_metadata, []⟩
  else
    let req1 := { req with location := IndexRegion.unknown }
    let r :=
      match req1.type with
      | RequestType.post => search_index_zone g or zone_count zone_id zone vi req1
      | RequestType.update => search_index_zone g or zone_count zone_id zone vi req1
      | RequestType.query => search_index_zone g or zone_count zone_id zone vi req1
      | RequestType.deleteReq => remove_from_index_zone g or zone vi req1
    if r.location = IndexRegion.unknown then
      { r with location := IndexRegion.unavailable }
    else r

/-- `handle_callbacks` (indexSession.c): the `found` flag handed to the
user callback is exactly "the location is not `UNAVAILABLE`". -/
def handle_callbacks_found (location : IndexRegion) : Bool :=
  location ≠ IndexRegion.unavailable

/-- C9 counterexample: on a single-zone sparse index, a non-requeued
request for a hook resolving to a cached-to-be sparse chapter whose
inline barrier simulation fails (`update_sparse_cache` reports a read
error) is completed with the error status and its location still
`UNKNOWN`: `dispatch_index_request` returns before the
UNKNOWN-to-UNAVAILABLE normalization. -/
theorem barrier_failure_completes_with_unknown_location :
    (dispatch_index_request ⟨16, 4, 2, 8, 2, 4⟩
          ⟨UDS_SUCCESS, fun _ _ => (UDS_SUCCESS, none),
            fun _ => (UDS_SUCCESS, none), fun _ => false, 1,
            fun _ => (true, 2), UDS_CORRUPT_DATA⟩
          1 0 ⟨10, 2, ⟨64, []⟩, ⟨64, []⟩⟩ ⟨[]⟩
          ⟨RequestType.post, false, 3, 7, 0, IndexRegion.unknown,
            false⟩).location
        = IndexRegion.unknown ∧
      (dispatch_index_request ⟨16, 4, 2, 8, 2, 4⟩
          ⟨UDS_SUCCESS, fun _ _ => (UDS_SUCCESS, none),
            fun _ => (UDS_SUCCESS, none), fun _ => false, 1,
            fun _ => (true, 2), UDS_CORRUPT_DATA⟩
          1 0 ⟨10, 2, ⟨64, []⟩, ⟨64, []⟩⟩ ⟨[]⟩
          ⟨RequestType.post, false, 3, 7, 0, IndexRegion.unknown,
            false⟩).status
        = UDS_CORRUPT_DATA := by
  constructor
  · rfl
  · rfl

/-- C9 (amended): a request completed through the user callback carries
`found = (location ≠ UNAVAILABLE)`; `dispatch_index_request` finishes
with the location still `UNKNOWN` only when the inline barrier
simulation of a non-requeued request fails — on that early error return
the location is left exactly as it came in — and in every other case
(requeued request, or successful simulation) a location left `UNKNOWN`
by the type dispatch is replaced by `UNAVAILABLE` before the result is
returned. -/
theorem dispatch_location_unknown_only_on_barrier_failure (g : Geometry)
    (or : ZoneOracle) (zone_count zone_id : Nat) (zone : IndexZone)
    (vi : VolumeIndexModel) (req : Request) :
    ((req.requeued = true ∨
        simulate_index_zone_barrier_message g or zone_count zone req.name
          = UDS_SUCCESS) →
      (dispatch_index_request g or zone_count zone_id zone vi req).location
        ≠ IndexRegion.unknown) ∧
    (req.requeued = false →
      simulate_index_zone_barrier_message g or zone_count zone req.name
        ≠ UDS_SUCCESS →
      dispatch_index_request g or zone_count zone_id zone vi req
        = ⟨simulate_index_zone_barrier_message g or zone_count zone req.name,
            zone, vi, req.location, req.old_metadata, []⟩) ∧
    (∀ loc : IndexRegion,
      handle_callbacks_found loc = true ↔ loc ≠ IndexRegion.unavailable) := by
  refine ⟨?_, ?_, ?_⟩
  · intro h
    have hsim : (if req.requeued = false then
        simulate_index_zone_barrier_message g or zone_count zone req.name
      else UDS_SUCCESS) = UDS_SUCCESS := by
      rcases h with h | h
      · rw [h]
        simp
      · split
        · exact h
        · rfl
    rw [dispatch_index_request]
    simp only [hsim, ne_eq, not_true_eq_false, if_false]
    split
    · intro hx
      simp at hx
    · rename_i hne
      exact hne
  · intro hrq hfail
    rw [dispatch_index_request]
    simp only [hrq, if_pos rfl, ne_eq, hfail, not_false_eq_true, if_true]
  · simp [handle_callbacks_found]

/-- Witness for the amended C9: on a dense index the simulation
trivially succeeds and a POST for an absent name ends with location
`UNAVAILABLE`, not `UNKNOWN`. -/
theorem dispatch_location_unknown_only_on_barrier_failure_witness :
    (dispatch_index_request ⟨16, 4, 2, 8, 0, 4⟩
        ⟨UDS_SUCCESS, fun _ _ => (UDS_SUCCESS, none),
          fun _ => (UDS_SUCCESS, none), fun _ => false, 1,
          fun _ => (false, 0), UDS_SUCCESS⟩
        1 0 ⟨0, 0, ⟨64, []⟩, ⟨64, []⟩⟩ ⟨[]⟩
        ⟨RequestType.post, false, 3, 7, 0, IndexRegion.unknown,
          false⟩).location
      ≠ IndexRegion.unknown :=
  (dispatch_location_unknown_only_on_barrier_failure ⟨16, 4, 2, 8, 0, 4⟩
      ⟨UDS_SUCCESS, fun _ _ => (UDS_SUCCESS, none),
        fun _ => (UDS_SUCCESS, none), fun _ => false, 1,
        fun _ => (false, 0), UDS_SUCCESS⟩
      1 0 ⟨0, 0, ⟨64, []⟩, ⟨64, []⟩⟩ ⟨[]⟩
      ⟨RequestType.post, false, 3, 7, 0, IndexRegion.unknown, false⟩).1
    (Or.inr (by decide))

/-! ## Rebuild replay (index.c) -/

/-- `replay_record` (index.c): re-enter one on-disk record into the
volume index during rebuild.  Records of chapters that will be sparse
are skipped unless sampled; a collision entry already citing this
chapter is left alone; a non-collision entry citing another chapter is
confirmed on disk to decide between update and insert; duplicate-name
and delta-list-overflow write results are swallowed.  Returns the status
and the volume index.  `replay_update_decision` is the part of
`replay_record` that decides between updating the existing entry and
inserting a new one, confirming on disk when the existing non-collision
entry cites a different chapter. -/
def replay_update_decision (or : ZoneOracle) (name : Nat)
    (record : VolumeIndexRecord) (virtual_chapter : Nat) : Int × Bool :=
  if record.is_found then
    if record.is_collision then (UDS_SUCCESS, true)
    else if record.virtual_chapter = virtual_chapter then (UDS_SUCCESS, false)
    else
      let vsr := or.volume_search name record.virtual_chapter
      (vsr.1, vsr.2.isSome)
  else (UDS_SUCCESS, false)

def replay_record (or : ZoneOracle) (vi : VolumeIndexModel)
    (name virtual_chapter : Nat) (will_be_sparse_chapter : Bool) :
    Int × VolumeIndexModel :=
  if will_be_sparse_chapter && !(or.is_sample name) then (UDS_SUCCESS, vi)
  else
    let record := get_volume_index_record vi name
    if record.is_found && record.is_collision &&
        (record.virtual_chapter == virtual_chapter) then
      (UDS_SUCCESS, vi)
    else
      let upd := replay_update_decision or name record virtual_chapter
      if upd.1 ≠ UDS_SUCCESS then (upd.1, vi)
      else
        let wr :=
          if upd.2 then
            set_volume_index_record_chapter vi name virtual_chapter
              or.vi_write_result
          else
            put_volume_index_record vi name virtual_chapter or.vi_write_result
        if wr.1 = UDS_DUPLICATE_NAME ∨ wr.1 = UDS_OVERFLOW then
          (UDS_SUCCESS, wr.2)
        else (wr.1, wr.2)

theorem replay_update_decision_fst (or : ZoneOracle) (name : Nat)
    (record : VolumeIndexRecord) (virtual_chapter : Nat)
    (hvs : ∀ n v, (or.volume_search n v).1 = UDS_SUCCESS) :
    (replay_update_decision or name record virtual_chapter).1 = UDS_SUCCESS := by
  rw [replay_update_decision]
  split
  · split
    · rfl
    · split
      · rfl
      · exact hvs _ _
  · rfl

/-- C4 counterexample: in normal POST processing a volume-index write
reporting `UDS_DUPLICATE_NAME` is not swallowed — `search_index_zone`
returns `UDS_DUPLICATE_NAME`, not `UDS_SUCCESS` (index.c only converts
`UDS_OVERFLOW`). -/
theorem duplicate_name_not_swallowed_on_post :
    (search_index_zone ⟨16, 4, 2, 8, 0, 4⟩
        ⟨UDS_DUPLICATE_NAME, fun _ _ => (UDS_SUCCESS, none),
          fun _ => (UDS_SUCCESS, none), fun _ => false, 1, fun _ => (false, 0), UDS_SUCCESS⟩
        1 0 ⟨0, 0, ⟨64, []⟩, ⟨64, []⟩⟩ ⟨[]⟩
        ⟨RequestType.post, false, 3, 7, 0, IndexRegion.unknown, false⟩).status
      = UDS_DUPLICATE_NAME ∧ UDS_DUPLICATE_NAME ≠ UDS_SUCCESS := by
  constructor
  · rfl
  · decide

/-- C4 (amended): during rebuild replay both `UDS_DUPLICATE_NAME` and
`UDS_OVERFLOW` from the volume-index write are swallowed — the replayed
record completes with `UDS_SUCCESS` and the index is unchanged; during
normal POST processing of a name absent from the volume index of a dense
index, a write reporting `UDS_OVERFLOW` is swallowed — the request
completes with `UDS_SUCCESS` and neither the zone nor the volume index
changes. -/
theorem overflow_swallowed_duplicate_only_in_replay (or : ZoneOracle)
    (g : Geometry) (zone_count zone_id : Nat) (zone : IndexZone)
    (vi : VolumeIndexModel) (req : Request) (name virtual_chapter : Nat)
    (will_be_sparse_chapter : Bool)
    (hvs : ∀ n v, (or.volume_search n v).1 = UDS_SUCCESS) :
    ((or.vi_write_result = UDS_DUPLICATE_NAME ∨
        or.vi_write_result = UDS_OVERFLOW) →
      replay_record or vi name virtual_chapter will_be_sparse_chapter
        = (UDS_SUCCESS, vi)) ∧
    ((or.vi_write_result = UDS_OVERFLOW →
      (get_volume_index_record vi req.name).is_found = false →
      is_sparse g = false →
      req.type = RequestType.post →
      search_index_zone g or zone_count zone_id zone vi req
        = ⟨UDS_SUCCESS, zone, vi, req.location, req.old_metadata, []⟩)) := by
  constructor
  · intro hw
    have hwr : or.vi_write_result ≠ UDS_SUCCESS := by
      rcases hw with hw | hw <;> rw [hw] <;> decide
    have hset : set_volume_index_record_chapter vi name virtual_chapter
        or.vi_write_result = (or.vi_write_result, vi) := by
      rw [set_volume_index_record_chapter, if_neg hwr]
    have hput : put_volume_index_record vi name virtual_chapter
        or.vi_write_result = (or.vi_write_result, vi) := by
      rw [put_volume_index_record, if_neg hwr]
    have h1 := replay_update_decision_fst or name
      (get_volume_index_record vi name) virtual_chapter hvs
    simp only [replay_record]
    split
    · rfl
    · split
      · rfl
      · simp [h1, hset, hput, hw]
  · intro hw hnotfound hdense htype
    have hput : put_volume_index_record vi req.name
        zone.newest_virtual_chapter or.vi_write_result
          = (UDS_OVERFLOW, vi) := by
      rw [put_volume_index_record, hw, if_neg (by decide)]
    simp [search_index_zone, hnotfound, hdense, hput, htype,
      search_index_zone_finish]

/-- Witness for the amended C4: a replayed record whose volume-index
write overflows completes with success and leaves the empty volume
index unchanged. -/
theorem overflow_swallowed_duplicate_only_in_replay_witness :
    replay_record
        ⟨UDS_OVERFLOW, fun _ _ => (UDS_SUCCESS, none),
          fun _ => (UDS_SUCCESS, none), fun _ => false, 1, fun _ => (false, 0), UDS_SUCCESS⟩
        ⟨[]⟩ 3 0 false = (UDS_SUCCESS, ⟨[]⟩) :=
  (overflow_swallowed_duplicate_only_in_replay
      ⟨UDS_OVERFLOW, fun _ _ => (UDS_SUCCESS, none),
        fun _ => (UDS_SUCCESS, none), fun _ => false, 1, fun _ => (false, 0), UDS_SUCCESS⟩
      ⟨16, 4, 2, 8, 0, 4⟩ 1 0 ⟨0, 0, ⟨64, []⟩, ⟨64, []⟩⟩ ⟨[]⟩
      ⟨RequestType.post, false, 3, 7, 0, IndexRegion.unknown, false⟩ 3 0 false
      (fun _ _ => rfl)).1 (Or.inr rfl)

/-! ## Double post (C7) -/

theorem any_eq_false_of_find_none {α : Type} (p : α → Bool) (l : List α)
    (h : l.find? p = none) : l.any p = false := by
  rw [List.any_eq_false]
  intro x hx
  have := List.find?_eq_none.mp h x hx
  simpa using this

/-- A POST for a name absent from the volume index of a dense index,
absent from the open chapter, with at least two free slots and a
successful volume-index write: it installs the name in the volume index
pointing at the open chapter, appends `(name, metadata)` to the open
chapter, and completes with success and location `UNAVAILABLE`
(reported to the callback as `found = false`). -/
theorem post_fresh_name (g : Geometry) (or : ZoneOracle)
    (zone_count zone_id : Nat) (zone : IndexZone) (vi : VolumeIndexModel)
    (N M : Nat)
    (hdense : is_sparse g = false)
    (habsent : vi.entries.find? (fun e => e.1 == N) = none)
    (hoc : zone.open_chapter.records.find? (fun r => r.1 == N) = none)
    (hcap : zone.open_chapter.records.length + 1 < zone.open_chapter.capacity)
    (hok : or.vi_write_result = UDS_SUCCESS) :
    dispatch_index_request g or zone_count zone_id zone vi
        ⟨RequestType.post, false, N, M, 0, IndexRegion.unknown, false⟩
      = ⟨UDS_SUCCESS,
          { zone with
              open_chapter :=
                ⟨zone.open_chapter.capacity,
                  zone.open_chapter.records ++ [(N, M)]⟩ },
          ⟨(N, ⟨zone.newest_virtual_chapter, false⟩) :: vi.entries⟩,
          IndexRegion.unavailable, 0, []⟩ := by
  have hrec : get_volume_index_record vi N = ⟨false, false, 0⟩ := by
    rw [get_volume_index_record, habsent]
  have hany : zone.open_chapter.records.any (fun r => r.1 == N) = false :=
    any_eq_false_of_find_none _ _ hoc
  have hput : put_volume_index_record vi N zone.newest_virtual_chapter
      or.vi_write_result
        = (UDS_SUCCESS, ⟨(N, ⟨zone.newest_virtual_chapter, false⟩) ::
            vi.entries⟩) := by
    rw [put_volume_index_record, hok, if_pos rfl]
  have hrem : ¬ (zone.open_chapter.capacity -
      (zone.open_chapter.records.length + 1) = 0) := by
    omega
  have hso : UDS_SUCCESS ≠ UDS_OVERFLOW := by decide
  simp [dispatch_index_request, simulate_index_zone_barrier_message,
    search_index_zone, hrec, hdense, hput,
    search_index_zone_finish, hso, put_record_in_zone, put_open_chapter,
    hany, hrem]

/-- A POST for a name whose volume-index entry already cites the open
chapter and whose record is in the open chapter with metadata `M`: the
request completes with success and location `IN_OPEN_CHAPTER` (reported
to the callback as `found = true`), returning `M` as the old metadata
and changing nothing. -/
theorem post_duplicate_name (g : Geometry) (or : ZoneOracle)
    (zone_count zone_id : Nat) (zone : IndexZone) (vi : VolumeIndexModel)
    (N M M2 : Nat)
    (hdense : is_sparse g = false)
    (hfound : vi.entries.find? (fun e => e.1 == N)
      = some (N, ⟨zone.newest_virtual_chapter, false⟩))
    (hocfind : zone.open_chapter.records.find? (fun r => r.1 == N)
      = some (N, M)) :
    dispatch_index_request g or zone_count zone_id zone vi
        ⟨RequestType.post, false, N, M2, 0, IndexRegion.unknown, false⟩
      = ⟨UDS_SUCCESS, zone, vi, IndexRegion.in_open_chapter, M, []⟩ := by
  have hrec : get_volume_index_record vi N
      = ⟨true, false, zone.newest_virtual_chapter⟩ := by
    rw [get_volume_index_record, hfound]
  have hso : search_open_chapter zone.open_chapter N = some M := by
    rw [search_open_chapter, hocfind]
    rfl
  simp [dispatch_index_request, simulate_index_zone_barrier_message,
    search_index_zone, hrec, hdense,
    get_record_from_zone, hso, compute_index_region]

/-- C7: posting a fresh name twice with the same metadata: the first
post reports `found = false`; the second post completes with success and
`found = true` (location `IN_OPEN_CHAPTER`), and the open chapter still
maps the name to the posted metadata. -/
theorem post_post_reports_found (g : Geometry) (or : ZoneOracle)
    (zone_count zone_id : Nat) (zone : IndexZone) (vi : VolumeIndexModel)
    (N M : Nat)
    (hdense : is_sparse g = false)
    (habsent : vi.entries.find? (fun e => e.1 == N) = none)
    (hoc : zone.open_chapter.records.find? (fun r => r.1 == N) = none)
    (hcap : zone.open_chapter.records.length + 1 < zone.open_chapter.capacity)
    (hok : or.vi_write_result = UDS_SUCCESS) :
    handle_callbacks_found
        (dispatch_index_request g or zone_count zone_id zone vi
          ⟨RequestType.post, false, N, M, 0, IndexRegion.unknown, false⟩).location
      = false ∧
    (dispatch_index_request g or zone_count zone_id
        (dispatch_index_request g or zone_count zone_id zone vi
          ⟨RequestType.post, false, N, M, 0, IndexRegion.unknown, false⟩).zone
        (dispatch_index_request g or zone_count zone_id zone vi
          ⟨RequestType.post, false, N, M, 0, IndexRegion.unknown, false⟩).vi
        ⟨RequestType.post, false, N, M, 0, IndexRegion.unknown, false⟩).status
      = UDS_SUCCESS ∧
    handle_callbacks_found
        (dispatch_index_request g or zone_count zone_id
          (dispatch_index_request g or zone_count zone_id zone vi
            ⟨RequestType.post, false, N, M, 0, IndexRegion.unknown, false⟩).zone
          (dispatch_index_request g or zone_count zone_id zone vi
            ⟨RequestType.post, false, N, M, 0, IndexRegion.unknown, false⟩).vi
          ⟨RequestType.post, false, N, M, 0, IndexRegion.unknown, false⟩).location
      = true ∧
    search_open_chapter
        (dispatch_index_request g or zone_count zone_id
          (dispatch_index_request g or zone_count zone_id zone vi
            ⟨RequestType.post, false, N, M, 0, IndexRegion.unknown, false⟩).zone
          (dispatch_index_request g or zone_count zone_id zone vi
            ⟨RequestType.post, false, N, M, 0, IndexRegion.unknown, false⟩).vi
          ⟨RequestType.post, false, N, M, 0, IndexRegion.unknown, false⟩).zone.open_chapter
        N
      = some M := by
  have h1 := post_fresh_name g or zone_count zone_id zone vi N M hdense habsent
    hoc hcap hok
  rw [h1]
  have hfound2 : (⟨(N, ⟨zone.newest_virtual_chapter, false⟩) ::
      vi.entries⟩ : VolumeIndexModel).entries.find? (fun e => e.1 == N)
        = some (N, ⟨zone.newest_virtual_chapter, false⟩) := by
    simp [List.find?]
  have hocfind2 : (zone.open_chapter.records ++ [(N, M)]).find?
      (fun r => r.1 == N) = some (N, M) := by
    rw [List.find?_append, hoc]
    simp
  have h2 := post_duplicate_name g or zone_count zone_id
    { zone with
        open_chapter :=
          ⟨zone.open_chapter.capacity, zone.open_chapter.records ++ [(N, M)]⟩ }
    ⟨(N, ⟨zone.newest_virtual_chapter, false⟩) :: vi.entries⟩ N M M hdense
    hfound2 hocfind2
  rw [h2]
  refine ⟨rfl, rfl, rfl, ?_⟩
  rw [search_open_chapter, hocfind2]
  rfl

/-- Witness for C7 at a concrete fresh index. -/
theorem post_post_reports_found_witness :
    handle_callbacks_found
        (dispatch_index_request ⟨16, 4, 2, 8, 0, 4⟩
          ⟨UDS_SUCCESS, fun _ _ => (UDS_SUCCESS, none),
            fun _ => (UDS_SUCCESS, none), fun _ => false, 1, fun _ => (false, 0), UDS_SUCCESS⟩ 1 0
          ⟨0, 0, ⟨64, []⟩, ⟨64, []⟩⟩ ⟨[]⟩
          ⟨RequestType.post, false, 3, 7, 0, IndexRegion.unknown, false⟩).location
      = false ∧
    (dispatch_index_request ⟨16, 4, 2, 8, 0, 4⟩
        ⟨UDS_SUCCESS, fun _ _ => (UDS_SUCCESS, none),
          fun _ => (UDS_SUCCESS, none), fun _ => false, 1, fun _ => (false, 0), UDS_SUCCESS⟩ 1 0
        (dispatch_index_request ⟨16, 4, 2, 8, 0, 4⟩
          ⟨UDS_SUCCESS, fun _ _ => (UDS_SUCCESS, none),
            fun _ => (UDS_SUCCESS, none), fun _ => false, 1, fun _ => (false, 0), UDS_SUCCESS⟩ 1 0
          ⟨0, 0, ⟨64, []⟩, ⟨64, []⟩⟩ ⟨[]⟩
          ⟨RequestType.post, false, 3, 7, 0, IndexRegion.unknown, false⟩).zone
        (dispatch_index_request ⟨16, 4, 2, 8, 0, 4⟩
          ⟨UDS_SUCCESS, fun _ _ => (UDS_SUCCESS, none),
            fun _ => (UDS_SUCCESS, none), fun _ => false, 1, fun _ => (false, 0), UDS_SUCCESS⟩ 1 0
          ⟨0, 0, ⟨64, []⟩, ⟨64, []⟩⟩ ⟨[]⟩
          ⟨RequestType.post, false, 3, 7, 0, IndexRegion.unknown, false⟩).vi
        ⟨RequestType.post, false, 3, 7, 0, IndexRegion.unknown, false⟩).status
      = UDS_SUCCESS :=
  ⟨(post_post_reports_found ⟨16, 4, 2, 8, 0, 4⟩
      ⟨UDS_SUCCESS, fun _ _ => (UDS_SUCCESS, none),
        fun _ => (UDS_SUCCESS, none), fun _ => false, 1, fun _ => (false, 0), UDS_SUCCESS⟩ 1 0
      ⟨0, 0, ⟨64, []⟩, ⟨64, []⟩⟩ ⟨[]⟩ 3 7 rfl rfl rfl (by decide) rfl).1,
    (post_post_reports_found ⟨16, 4, 2, 8, 0, 4⟩
      ⟨UDS_SUCCESS, fun _ _ => (UDS_SUCCESS, none),
        fun _ => (UDS_SUCCESS, none), fun _ => false, 1, fun _ => (false, 0), UDS_SUCCESS⟩ 1 0
      ⟨0, 0, ⟨64, []⟩, ⟨64, []⟩⟩ ⟨[]⟩ 3 7 rfl rfl rfl (by decide) rfl).2.1⟩

/-! ## DELETE frame conditions (C10) -/

/-- C10: a DELETE whose name is not in the volume index, or whose
non-collision hint is not confirmed in the cited chapter, returns
`UDS_SUCCESS` and changes neither the volume index nor the zone; and
conversely any change to the volume index or the zone requires the
entry to have been found and to be either a collision entry or a
confirmed record. -/
theorem delete_miss_is_noop (g : Geometry) (or : ZoneOracle)
    (zone : IndexZone) (vi : VolumeIndexModel) (req : Request) :
    ((get_volume_index_record vi req.name).is_found = false →
      remove_from_index_zone g or zone vi req
        = ⟨UDS_SUCCESS, zone, vi, req.location, req.old_metadata, []⟩) ∧
    ((get_volume_index_record vi req.name).is_found = true →
      (get_volume_index_record vi req.name).is_collision = false →
      (remove_probe or zone req (get_volume_index_record vi req.name)).1
        = UDS_SUCCESS →
      (remove_probe or zone req (get_volume_index_record vi req.name)).2.1
        = false →
      remove_from_index_zone g or zone vi req
        = ⟨UDS_SUCCESS, zone, vi, req.location,
            (remove_probe or zone req
              (get_volume_index_record vi req.name)).2.2, []⟩) ∧
    (((remove_from_index_zone g or zone vi req).vi ≠ vi ∨
        (remove_from_index_zone g or zone vi req).zone ≠ zone) →
      (get_volume_index_record vi req.name).is_found = true ∧
        ((get_volume_index_record vi req.name).is_collision = true ∨
          (remove_probe or zone req
            (get_volume_index_record vi req.name)).2.1 = true)) := by
  refine ⟨?_, ?_, ?_⟩
  · intro hnf
    rw [remove_from_index_zone]
    simp [hnf]
  · intro hf hnc hps hpf
    rw [remove_from_index_zone]
    simp [hf, hnc, hps, hpf]
  · intro hchange
    rcases hf : (get_volume_index_record vi req.name).is_found with _ | _
    · exfalso
      rw [remove_from_index_zone] at hchange
      simp [hf] at hchange
    · refine ⟨rfl, ?_⟩
      rcases hc : (get_volume_index_record vi req.name).is_collision with _ | _
      · rcases hpf : (remove_probe or zone req
            (get_volume_index_record vi req.name)).2.1 with _ | _
        · exfalso
          by_cases hps : (remove_probe or zone req
              (get_volume_index_record vi req.name)).1 = UDS_SUCCESS
          · rw [remove_from_index_zone] at hchange
            simp [hf, hc, hps, hpf] at hchange
          · rw [remove_from_index_zone] at hchange
            simp [hf, hps] at hchange
        · exact Or.inr rfl
      · exact Or.inl rfl

/-- Witness for C10: deleting a name from an empty index succeeds and
leaves the empty state untouched. -/
theorem delete_miss_is_noop_witness :
    remove_from_index_zone ⟨16, 4, 2, 8, 0, 4⟩
        ⟨UDS_SUCCESS, fun _ _ => (UDS_SUCCESS, none),
          fun _ => (UDS_SUCCESS, none), fun _ => false, 1, fun _ => (false, 0), UDS_SUCCESS⟩
        ⟨0, 0, ⟨64, []⟩, ⟨64, []⟩⟩ ⟨[]⟩
        ⟨RequestType.deleteReq, false, 3, 0, 0, IndexRegion.unknown, false⟩
      = ⟨UDS_SUCCESS, ⟨0, 0, ⟨64, []⟩, ⟨64, []⟩⟩, ⟨[]⟩, IndexRegion.unknown,
          0, []⟩ :=
  (delete_miss_is_noop ⟨16, 4, 2, 8, 0, 4⟩
      ⟨UDS_SUCCESS, fun _ _ => (UDS_SUCCESS, none),
        fun _ => (UDS_SUCCESS, none), fun _ => false, 1, fun _ => (false, 0), UDS_SUCCESS⟩
      ⟨0, 0, ⟨64, []⟩, ⟨64, []⟩⟩ ⟨[]⟩
      ⟨RequestType.deleteReq, false, 3, 0, 0, IndexRegion.unknown, false⟩).1 rfl

/-! ## Suspend checks during replay (C8)

The load-context state machine lives in the session
(`indexSession.c`): `OPENING → SUSPENDING → SUSPENDED → OPENING`
(resume) or `→ FREEING` (destroy).  `check_for_suspend` (index.c) runs
between chapters of the replay; the concurrent interaction is modelled
by the pair of statuses the function observes: the status on entry, and
— when it suspends — the first status in {OPENING, FREEING} that ends
its wait. -/

/-- The states of `load_context.status` (uds.h / indexSession.c). -/
inductive LoadContextStatus where
  | index_opening
  | index_ready
  | index_suspending
  | index_suspended
  | index_freeing
deriving DecidableEq

/-- What one invocation of `check_for_suspend` observes: whether the
index has a load context, the status read under the mutex, and the
status that ends the wait (only reached when the entry status was
`SUSPENDING`). -/
structure SuspendObservation where
  has_load_context : Bool
  status : LoadContextStatus
  resume_status : LoadContextStatus
deriving DecidableEq

/-- `check_for_suspend` (index.c): without a load context, or when the
status is not `SUSPENDING`, the replay continues; otherwise the thread
publishes `SUSPENDED`, waits until the status becomes `OPENING` or
`FREEING`, and reports termination exactly when it is `FREEING`. -/
def check_for_suspend (obs : SuspendObservation) : Bool :=
  if obs.has_load_context = false then false
  else if obs.status ≠ LoadContextStatus.index_suspending then false
  else obs.resume_status = LoadContextStatus.index_freeing

/-- The chapter loop of `replay_volume` (index.c), iterating over
`upto_vcn - from_vcn` chapters: before each chapter the suspend check
may terminate the replay with `-EBUSY`; the per-chapter work (index page
map rebuild and record replay, whose page reads live behind the oracle)
is summarized by `body`. -/
def replay_chapters (obs : Nat → SuspendObservation) (body : Nat → Int) :
    Nat → Nat → Int
  | _, 0 => UDS_SUCCESS
  | vcn, k + 1 =>
    if check_for_suspend (obs vcn) then EBUSY_ERROR
    else
      let r := body vcn
      if r ≠ UDS_SUCCESS then r
      else replay_chapters obs body (vcn + 1) k

/-- `replay_volume` (index.c), reduced to its chapter loop over
`[from_vcn, upto_vcn)`. -/
def replay_volume (obs : Nat → SuspendObservation) (body : Nat → Int)
    (from_vcn upto_vcn : Nat) : Int :=
  replay_chapters obs body from_vcn (upto_vcn - from_vcn)

/-- C8 counterexample: the load context transitions to `SUSPENDING`
during replay (and the suspension later ends with a resume to
`OPENING`), yet the replay completes with `UDS_SUCCESS` instead of
exiting with the busy error. -/
theorem suspending_alone_does_not_abort_replay :
    replay_volume
        (fun _ => ⟨true, LoadContextStatus.index_suspending,
          LoadContextStatus.index_opening⟩)
        (fun _ => UDS_SUCCESS) 0 1
      = UDS_SUCCESS ∧ UDS_SUCCESS ≠ EBUSY_ERROR := by
  constructor
  · rfl
  · decide

/-- C8 (amended): the replay loop exits with `-EBUSY` exactly on the
suspend check succeeding, and the suspend check succeeds iff a load
context is present, its status is observed as `SUSPENDING`, and the wait
that follows ends with `FREEING`; a `SUSPENDING` status resumed to
`OPENING` (and any status other than `SUSPENDING`, including a direct
`FREEING`) lets the replay continue. -/
theorem replay_aborts_on_suspend_to_freeing
    (obs : Nat → SuspendObservation) (body : Nat → Int)
    (from_vcn upto_vcn : Nat) (h1 : from_vcn < upto_vcn)
    (h2 : check_for_suspend (obs from_vcn) = true) :
    replay_volume obs body from_vcn upto_vcn = EBUSY_ERROR ∧
    (∀ o : SuspendObservation,
      check_for_suspend o = true ↔
        (o.has_load_context = true ∧
          o.status = LoadContextStatus.index_suspending ∧
          o.resume_status = LoadContextStatus.index_freeing)) := by
  constructor
  · obtain ⟨k, hk⟩ : ∃ k, upto_vcn - from_vcn = k + 1 :=
      ⟨upto_vcn - from_vcn - 1, by omega⟩
    rw [replay_volume, hk, replay_chapters, if_pos h2]
  · intro o
    rcases o with ⟨hc, s, r⟩
    cases hc <;> cases s <;> cases r <;> decide

/-- Witness for the amended C8: replay aborts with `-EBUSY` when the
suspend check of the first chapter observes `SUSPENDING` ended by
`FREEING`. -/
theorem replay_aborts_on_suspend_to_freeing_witness :
    replay_volume
        (fun _ => ⟨true, LoadContextStatus.index_suspending,
          LoadContextStatus.index_freeing⟩)
        (fun _ => UDS_SUCCESS) 0 1
      = EBUSY_ERROR :=
  (replay_aborts_on_suspend_to_freeing
      (fun _ => ⟨true, LoadContextStatus.index_suspending,
        LoadContextStatus.index_freeing⟩)
      (fun _ => UDS_SUCCESS) 0 1 (by decide) (by decide)).1

end Uds
